import Mathlib

/-!
Verification of the fitness-tracker module `homework.py`.

The Python source is shallowly embedded: numeric values are modelled as
exact rationals (`ℚ`), Python exceptions as the `PyError` type carried in
`Except`, and each method of each class as a Lean function translated
statement by statement from the source.  Python's dynamic attribute lookup
(`self.LEN_STEP` resolving to the subclass override) is made explicit by
giving each class its own copy of any method whose behaviour changes under
inheritance.
-/

namespace Homework

/-- Exceptions the program can raise.  `keyError` models Python's
`KeyError` raised by the `dict_training[workout_type]` lookup and carries
the missing key; `typeError` models the `TypeError` raised when a
constructor is called with the wrong number of positional arguments and
carries the class name, the expected and the received parameter count;
`zeroDivisionError` models `ZeroDivisionError` from `/` with a zero
divisor. -/
inductive PyError where
  | keyError (key : String)
  | typeError (cls : String) (expected got : Nat)
  | zeroDivisionError
  deriving DecidableEq, Repr

/-- Python division: raises `ZeroDivisionError` on a zero divisor
(for floats as well as ints), otherwise exact division. -/
def pydiv (a b : ℚ) : Except PyError ℚ :=
  if b = 0 then .error .zeroDivisionError else .ok (a / b)

/-- Class `InfoMessage`: the report record built by
`Training.show_training_info`.  Fields mirror `InfoMessage.__init__`. -/
structure InfoMessage where
  training_type : String
  duration : ℚ
  distance : ℚ
  speed : ℚ
  calories : ℚ
  deriving DecidableEq, Repr

/-- Base class `Training`: fields assigned in `Training.__init__`
(`self.action`, `self.duration`, `self.weight`), stored unchanged, with
no validation.  `action` is modelled as `ℚ` like the other numbers since
Python does not enforce the `int` annotation on positional binding. -/
structure Training where
  action : ℚ
  duration : ℚ
  weight : ℚ
  deriving DecidableEq, Repr

namespace Training

/-- Class attribute `Training.M_IN_KM = 1000`. -/
def M_IN_KM : ℚ := 1000

/-- Class attribute `Training.LEN_STEP = 0.65`. -/
def LEN_STEP : ℚ := 0.65

/-- Class attribute `Training.TIME_IN_MINUTE = 60`. -/
def TIME_IN_MINUTE : ℚ := 60

/-- `Training.get_distance`: `self.action * self.LEN_STEP / self.M_IN_KM`.
The divisor is the nonzero literal 1000, so plain division is exact. -/
def get_distance (t : Training) : ℚ :=
  t.action * LEN_STEP / M_IN_KM

/-- `Training.get_mean_speed`: `self.get_distance() / self.duration`;
raises `ZeroDivisionError` when `duration = 0`. -/
def get_mean_speed (t : Training) : Except PyError ℚ :=
  pydiv t.get_distance t.duration

/-- `Training.get_spent_calories`: the body is the single statement
`pass`, so the call returns Python's `None` (modelled as `none`), despite
the `-> float` annotation. -/
def get_spent_calories (_ : Training) : Option ℚ :=
  none

end Training

/-- Class `Running(Training)`: adds no fields; its `__init__` forwards
all three arguments to `Training.__init__`. -/
structure Running extends Training
  deriving DecidableEq, Repr

namespace Running

/-- Class attribute `Running.CALORIES_MEAN_SPEED_MULTIPLIER = 18`. -/
def CALORIES_MEAN_SPEED_MULTIPLIER : ℚ := 18

/-- Class attribute `Running.ALORIES_MEAN_SPEED_SHIFT = 1.79`
(sic: the source misspells the name). -/
def ALORIES_MEAN_SPEED_SHIFT : ℚ := 1.79

/-- `Running.get_spent_calories`:
`(MULTIPLIER * self.get_mean_speed() + SHIFT) * self.weight / self.M_IN_KM
 * self.duration * self.TIME_IN_MINUTE`. -/
def get_spent_calories (r : Running) : Except PyError ℚ := do
  let speed ← r.toTraining.get_mean_speed
  pure ((CALORIES_MEAN_SPEED_MULTIPLIER * speed + ALORIES_MEAN_SPEED_SHIFT)
        * r.weight / Training.M_IN_KM
        * r.duration * Training.TIME_IN_MINUTE)

/-- `Running.show_training_info` (inherited from `Training` verbatim):
builds the `InfoMessage` from the class name and the three computed
metrics, using `Running`'s calorie override via dynamic dispatch. -/
def show_training_info (r : Running) : Except PyError InfoMessage := do
  let dist := r.toTraining.get_distance
  let speed ← r.toTraining.get_mean_speed
  let cal ← r.get_spent_calories
  pure ⟨"Running", r.duration, dist, speed, cal⟩

end Running

/-- Class `SportsWalking(Training)`: `__init__` forwards the first three
arguments to the base and additionally stores `self.height = height`. -/
structure SportsWalking extends Training where
  height : ℚ
  deriving DecidableEq, Repr

namespace SportsWalking

/-- Class attribute `SportsWalking.COEFF_CALORIE_1 = 0.035`. -/
def COEFF_CALORIE_1 : ℚ := 0.035

/-- Class attribute `SportsWalking.COEFF_CALORIE_2 = 2` (exponent). -/
def COEFF_CALORIE_2 : ℕ := 2

/-- Class attribute `SportsWalking.COEFF_CALORIE_3 = 0.029`. -/
def COEFF_CALORIE_3 : ℚ := 0.029

/-- Class attribute `SportsWalking.COEFF_M_IN_S = 0.278`. -/
def COEFF_M_IN_S : ℚ := 0.278

/-- Class attribute `SportsWalking.CONST_M_IN_S = 100`. -/
def CONST_M_IN_S : ℚ := 100

/-- `SportsWalking.get_spent_calories`:
`speed_m_in_s_power_2 = (self.get_mean_speed() * COEFF_M_IN_S) ** 2`;
`h_in_m = self.duration * TIME_IN_MINUTE`;
`height_in_m = self.height / CONST_M_IN_S`;
result `(COEFF_1 * weight + (speed_m_in_s_power_2 / height_in_m)
 * COEFF_3 * weight) * h_in_m`.
The division by `height_in_m` raises `ZeroDivisionError` when it is 0. -/
def get_spent_calories (w : SportsWalking) : Except PyError ℚ := do
  let speed ← w.toTraining.get_mean_speed
  let speed_m_in_s_power_2 := (speed * COEFF_M_IN_S) ^ COEFF_CALORIE_2
  let h_in_m := w.duration * Training.TIME_IN_MINUTE
  let height_in_m := w.height / CONST_M_IN_S
  let q ← pydiv speed_m_in_s_power_2 height_in_m
  pure ((COEFF_CALORIE_1 * w.weight + q * COEFF_CALORIE_3 * w.weight) * h_in_m)

/-- `SportsWalking.show_training_info` (inherited from `Training`
verbatim), with `SportsWalking`'s calorie override via dynamic dispatch. -/
def show_training_info (w : SportsWalking) : Except PyError InfoMessage := do
  let dist := w.toTraining.get_distance
  let speed ← w.toTraining.get_mean_speed
  let cal ← w.get_spent_calories
  pure ⟨"SportsWalking", w.duration, dist, speed, cal⟩

end SportsWalking

/-- Class `Swimming(Training)`: `__init__` forwards the first three
arguments to the base and stores `self.length_pool` and
`self.count_pool`. -/
structure Swimming extends Training where
  length_pool : ℚ
  count_pool : ℚ
  deriving DecidableEq, Repr

namespace Swimming

/-- Class attribute `Swimming.LEN_STEP = 1.38`, overriding the base's
0.65. -/
def LEN_STEP : ℚ := 1.38

/-- Class attribute `Swimming.COEFF_CALORIE_1 = 1.1`. -/
def COEFF_CALORIE_1 : ℚ := 1.1

/-- Class attribute `Swimming.COEFF_CALORIE_2 = 2`. -/
def COEFF_CALORIE_2 : ℚ := 2

/-- `Training.get_distance` as executed on a `Swimming` instance: the
inherited body `self.action * self.LEN_STEP / self.M_IN_KM` with
`self.LEN_STEP` resolving to `Swimming.LEN_STEP = 1.38`. -/
def get_distance (s : Swimming) : ℚ :=
  s.action * LEN_STEP / Training.M_IN_KM

/-- `Swimming.get_mean_speed` (override):
`self.length_pool * self.count_pool / self.M_IN_KM / self.duration`;
raises `ZeroDivisionError` when `duration = 0`. -/
def get_mean_speed (s : Swimming) : Except PyError ℚ :=
  pydiv (s.length_pool * s.count_pool / Training.M_IN_KM) s.duration

/-- `Swimming.get_spent_calories`:
`(self.get_mean_speed() + COEFF_CALORIE_1) * COEFF_CALORIE_2
 * self.weight * self.duration`. -/
def get_spent_calories (s : Swimming) : Except PyError ℚ := do
  let speed ← s.get_mean_speed
  pure ((speed + COEFF_CALORIE_1) * COEFF_CALORIE_2 * s.weight * s.duration)

/-- `Swimming.show_training_info` (inherited from `Training` verbatim),
with `Swimming`'s distance, speed and calorie overrides resolved by
dynamic dispatch. -/
def show_training_info (s : Swimming) : Except PyError InfoMessage := do
  let dist := s.get_distance
  let speed ← s.get_mean_speed
  let cal ← s.get_spent_calories
  pure ⟨"Swimming", s.duration, dist, speed, cal⟩

end Swimming

/-- The three characters after the decimal point of a fixed-point
rendering: the hundreds, tens and units decimal digits of `m` (which is
the fractional part scaled by 1000), zero-padded to width 3 as `:.3f`
does. -/
def frac3 (m : Nat) : String :=
  String.mk [Nat.digitChar (m / 100 % 10), Nat.digitChar (m / 10 % 10),
             Nat.digitChar (m % 10)]

/-- Python's `:.3f` fixed-point format specifier on an exact rational:
round to the nearest multiple of 1/1000 (ties modelled as away from
zero) and render with a sign, the integer part, a point, and exactly
three fractional digits. -/
def formatFixed3 (q : ℚ) : String :=
  let n : ℤ := if q < 0 then -⌊-q * 1000 + 1 / 2⌋ else ⌊q * 1000 + 1 / 2⌋
  (if q < 0 then "-" else "") ++ toString (n.natAbs / 1000) ++ "."
    ++ frac3 (n.natAbs % 1000)

/-- `InfoMessage.get_message`: the f-string
`Тип тренировки: _; Длительность: _ ч.; Дистанция: _ км; Ср. скорость: _
км/ч; Потрачено ккал: _.` with the four numeric fields rendered by the
`:.3f` format specifier. -/
def InfoMessage.get_message (m : InfoMessage) : String :=
  "Тип тренировки: " ++ m.training_type
    ++ "; Длительность: " ++ formatFixed3 m.duration
    ++ " ч.; Дистанция: " ++ formatFixed3 m.distance
    ++ " км; Ср. скорость: " ++ formatFixed3 m.speed
    ++ " км/ч; Потрачено ккал: " ++ formatFixed3 m.calories ++ "."

/-- The number of characters strictly after the last `.` of a string
(the whole string when it has no `.`). -/
def afterPointLen (s : String) : Nat :=
  (s.data.reverse.takeWhile (fun c => !(c == '.'))).length

/-- The value built by `read_package`: one of the three concrete
training classes (there is no code path building a bare `Training`). -/
inductive TrainingObj where
  | swm (s : Swimming)
  | run (r : Running)
  | wlk (w : SportsWalking)
  deriving DecidableEq, Repr

/-- `read_package(workout_type, data)`: looks `workout_type` up in
`dict_training = {SWM: Swimming, RUN: Running, WLK: SportsWalking}` and
calls the found class with `*data`.  A missing key raises
`KeyError(workout_type)` before any constructor runs; a wrong number of
positional arguments raises `TypeError` naming the class and the counts;
otherwise the parameters are bound positionally in source order. -/
def read_package (workout_type : String) (data : List ℚ) :
    Except PyError TrainingObj :=
  if workout_type = "SWM" then
    match data with
    | [a, d, w, lp, cp] => .ok (.swm ⟨⟨a, d, w⟩, lp, cp⟩)
    | _ => .error (.typeError "Swimming" 5 data.length)
  else if workout_type = "RUN" then
    match data with
    | [a, d, w] => .ok (.run ⟨⟨a, d, w⟩⟩)
    | _ => .error (.typeError "Running" 3 data.length)
  else if workout_type = "WLK" then
    match data with
    | [a, d, w, h] => .ok (.wlk ⟨⟨a, d, w⟩, h⟩)
    | _ => .error (.typeError "SportsWalking" 4 data.length)
  else
    .error (.keyError workout_type)

/-- The driver's per-entry work (`read_package` followed by
`main`'s `training.show_training_info()`): build the report record for
one `(workout_type, data)` package. -/
def buildReport (workout_type : String) (data : List ℚ) :
    Except PyError InfoMessage := do
  let t ← read_package workout_type data
  match t with
  | .swm s => s.show_training_info
  | .run r => r.show_training_info
  | .wlk w => w.show_training_info

/-!
State-passing translations of the methods.  Python methods receive the
object and may in principle mutate it; these versions thread the
receiver explicitly, statement by statement, so that the absence of any
`self.attr = ...` assignment in the method bodies becomes a provable
frame property (the returned object equals the received one).  On an
exception the object is likewise returned as it stood, since a raised
exception does not touch attributes either.
-/

/-- `Training.get_distance` in state-passing form: assigns only the
local `result`, then returns. -/
def Training.get_distanceSt (t : Training) : ℚ × Training :=
  let result := t.action * Training.LEN_STEP / Training.M_IN_KM
  (result, t)

/-- `Training.get_mean_speed` in state-passing form: calls
`get_distance` on the receiver, divides by `self.duration`. -/
def Training.get_mean_speedSt (t : Training) : Except PyError ℚ × Training :=
  let (d, t1) := t.get_distanceSt
  (pydiv d t1.duration, t1)

/-- `Running.get_spent_calories` in state-passing form. -/
def Running.get_spent_caloriesSt (r : Running) : Except PyError ℚ × Running :=
  let (speedE, t1) := Training.get_mean_speedSt r.toTraining
  let r1 : Running := ⟨t1⟩
  ((do let speed ← speedE
       pure ((Running.CALORIES_MEAN_SPEED_MULTIPLIER * speed
              + Running.ALORIES_MEAN_SPEED_SHIFT)
             * r1.weight / Training.M_IN_KM
             * r1.duration * Training.TIME_IN_MINUTE)), r1)

/-- `Training.show_training_info` as executed on a `Running` instance,
in state-passing form. -/
def Running.show_training_infoSt (r : Running) :
    Except PyError InfoMessage × Running :=
  let (dist, t1) := Training.get_distanceSt r.toTraining
  let (speedE, t2) := Training.get_mean_speedSt t1
  let r2 : Running := ⟨t2⟩
  let (calE, r3) := Running.get_spent_caloriesSt r2
  ((do pure (InfoMessage.mk "Running" r3.duration dist (← speedE) (← calE))), r3)

/-- `SportsWalking.get_spent_calories` in state-passing form. -/
def SportsWalking.get_spent_caloriesSt (w : SportsWalking) :
    Except PyError ℚ × SportsWalking :=
  let (speedE, t1) := Training.get_mean_speedSt w.toTraining
  let w1 : SportsWalking := ⟨t1, w.height⟩
  ((do let speed ← speedE
       let speed_m_in_s_power_2 :=
         (speed * SportsWalking.COEFF_M_IN_S) ^ SportsWalking.COEFF_CALORIE_2
       let h_in_m := w1.duration * Training.TIME_IN_MINUTE
       let height_in_m := w1.height / SportsWalking.CONST_M_IN_S
       let q ← pydiv speed_m_in_s_power_2 height_in_m
       pure ((SportsWalking.COEFF_CALORIE_1 * w1.weight
              + q * SportsWalking.COEFF_CALORIE_3 * w1.weight) * h_in_m)), w1)

/-- `Training.show_training_info` as executed on a `SportsWalking`
instance, in state-passing form. -/
def SportsWalking.show_training_infoSt (w : SportsWalking) :
    Except PyError InfoMessage × SportsWalking :=
  let (dist, t1) := Training.get_distanceSt w.toTraining
  let (speedE, t2) := Training.get_mean_speedSt t1
  let w2 : SportsWalking := ⟨t2, w.height⟩
  let (calE, w3) := SportsWalking.get_spent_caloriesSt w2
  ((do pure (InfoMessage.mk "SportsWalking" w3.duration dist (← speedE) (← calE))), w3)

/-- `Training.get_distance` as executed on a `Swimming` instance
(`LEN_STEP = 1.38`), in state-passing form. -/
def Swimming.get_distanceSt (s : Swimming) : ℚ × Swimming :=
  let result := s.action * Swimming.LEN_STEP / Training.M_IN_KM
  (result, s)

/-- `Swimming.get_mean_speed` in state-passing form: reads attributes
only. -/
def Swimming.get_mean_speedSt (s : Swimming) : Except PyError ℚ × Swimming :=
  (pydiv (s.length_pool * s.count_pool / Training.M_IN_KM) s.duration, s)

/-- `Swimming.get_spent_calories` in state-passing form. -/
def Swimming.get_spent_caloriesSt (s : Swimming) : Except PyError ℚ × Swimming :=
  let (speedE, s1) := Swimming.get_mean_speedSt s
  ((do let speed ← speedE
       pure ((speed + Swimming.COEFF_CALORIE_1) * Swimming.COEFF_CALORIE_2
             * s1.weight * s1.duration)), s1)

/-- `Training.show_training_info` as executed on a `Swimming` instance,
in state-passing form. -/
def Swimming.show_training_infoSt (s : Swimming) :
    Except PyError InfoMessage × Swimming :=
  let (dist, s1) := Swimming.get_distanceSt s
  let (speedE, s2) := Swimming.get_mean_speedSt s1
  let (calE, s3) := Swimming.get_spent_caloriesSt s2
  ((do pure (InfoMessage.mk "Swimming" s3.duration dist (← speedE) (← calE))), s3)

/-!  Small computation lemmas shared by the proofs below. -/

/-- `bind` on a successful `Except` computation. -/
lemma ok_bind {α β : Type} (a : α) (f : α → Except PyError β) :
    (do let x ← Except.ok a; f x : Except PyError β) = f a := rfl

/-- `bind` on a failed `Except` computation. -/
lemma error_bind {α β : Type} (e : PyError) (f : α → Except PyError β) :
    (do let x ← (Except.error e : Except PyError α); f x : Except PyError β)
      = .error e := rfl

/-- `map` on a successful `Except` computation. -/
lemma map_ok {α β : Type} (f : α → β) (a : α) :
    f <$> (Except.ok a : Except PyError α) = .ok (f a) := rfl

/-- `map` on a failed `Except` computation. -/
lemma map_error {α β : Type} (f : α → β) (e : PyError) :
    f <$> (Except.error e : Except PyError α) = .error e := rfl

/-- A decimal digit character is never the decimal point. -/
lemma digitChar_beq_dot (m : Nat) (h : m < 10) :
    (Nat.digitChar m == '.') = false := by
  interval_cases m <;> decide

/-- Any string ending in a point followed by a three-digit block has
exactly three characters after its last point. -/
lemma afterPointLen_append_frac3 (s : String) (m : Nat) :
    afterPointLen (s ++ "." ++ frac3 m) = 3 := by
  have h1 : (Nat.digitChar (m / 100 % 10) == '.') = false :=
    digitChar_beq_dot _ (Nat.mod_lt _ (by norm_num))
  have h2 : (Nat.digitChar (m / 10 % 10) == '.') = false :=
    digitChar_beq_dot _ (Nat.mod_lt _ (by norm_num))
  have h3 : (Nat.digitChar (m % 10) == '.') = false :=
    digitChar_beq_dot _ (Nat.mod_lt _ (by norm_num))
  simp [afterPointLen, frac3, String.data_append, List.takeWhile, h1, h2, h3]

/-- `formatFixed3` always renders exactly three digits after the
decimal point. -/
lemma afterPointLen_formatFixed3 (q : ℚ) :
    afterPointLen (formatFixed3 q) = 3 := by
  unfold formatFixed3
  exact afterPointLen_append_frac3 _ _

/-- `pure` in the `Except` monad is `Except.ok`. -/
lemma pure_eq_ok {α : Type} (a : α) : (pure a : Except PyError α) = .ok a := rfl

/-- Rendering the value 1 with three fixed decimals. -/
lemma formatFixed3_one : formatFixed3 1 = "1.000" := by
  unfold formatFixed3 frac3
  norm_num
  decide

/-- Rendering the Swimming scenario's distance 0.9936 with three fixed
decimals rounds it to 0.994. -/
lemma formatFixed3_dist : formatFixed3 0.9936 = "0.994" := by
  unfold formatFixed3 frac3
  norm_num
  decide

/-- Rendering the value 336 with three fixed decimals. -/
lemma formatFixed3_cal : formatFixed3 336 = "336.000" := by
  unfold formatFixed3 frac3
  norm_num
  decide

/-- Evaluation of the `("SWM", [720, 1, 80, 25, 40])` package from the
driver's hardcoded list: the report carries name `Swimming`, the input
duration 1, distance `720 * 1.38 / 1000 = 0.9936`, pool-based mean
speed `25 * 40 / 1000 / 1 = 1` and calories
`(1 + 1.1) * 2 * 80 * 1 = 336`. -/
lemma swm_report_eval :
    buildReport "SWM" [720, 1, 80, 25, 40]
      = .ok ⟨"Swimming", 1, 0.9936, 1, 336⟩ := by
  simp only [buildReport, read_package, Swimming.show_training_info,
    Swimming.get_distance, Swimming.get_mean_speed, Swimming.get_spent_calories,
    pydiv, Training.M_IN_KM, Swimming.LEN_STEP, Swimming.COEFF_CALORIE_1,
    Swimming.COEFF_CALORIE_2, ok_bind]
  norm_num [ok_bind, map_ok]

/-- Claim C1: for every `Running` record with positive duration,
`get_spent_calories` returns exactly
`(18 * meanSpeed + 1.79) * weight / 1000 * duration * 60` with
`meanSpeed = action * 0.65 / 1000 / duration`, in this operation
order and with these literal constants. -/
theorem running_calories_formula (r : Running) (h : 0 < r.duration) :
    r.get_spent_calories =
      .ok ((18 * (r.action * 0.65 / 1000 / r.duration) + 1.79)
           * r.weight / 1000 * r.duration * 60) := by
  have hd : r.duration ≠ 0 := ne_of_gt h
  simp only [Running.get_spent_calories, Training.get_mean_speed,
    Training.get_distance, pydiv, Training.M_IN_KM, Training.LEN_STEP,
    Training.TIME_IN_MINUTE, Running.CALORIES_MEAN_SPEED_MULTIPLIER,
    Running.ALORIES_MEAN_SPEED_SHIFT, if_neg hd, ok_bind, pure_eq_ok]

/-- Witness for claim C1 at the driver's own RUN package
`(15000, 1, 75)`. -/
theorem running_calories_formula_witness :
    (0 : ℚ) < 1 ∧ (Running.mk ⟨15000, 1, 75⟩).get_spent_calories =
      .ok ((18 * ((15000 : ℚ) * 0.65 / 1000 / 1) + 1.79) * 75 / 1000 * 1 * 60) :=
  ⟨one_pos, running_calories_formula ⟨⟨15000, 1, 75⟩⟩ one_pos⟩

/-- Claim C2: for every `Swimming` record with positive duration,
`get_mean_speed` returns `length_pool * count_pool / 1000 / duration`,
and any second `Swimming` record agreeing on pool length, lap count and
duration (whatever its `action`) gets the same mean speed. -/
theorem swimming_mean_speed_formula (s : Swimming) (h : 0 < s.duration) :
    s.get_mean_speed = .ok (s.length_pool * s.count_pool / 1000 / s.duration)
    ∧ ∀ t : Swimming, t.length_pool = s.length_pool →
        t.count_pool = s.count_pool → t.duration = s.duration →
        t.get_mean_speed = s.get_mean_speed := by
  constructor
  · simp [Swimming.get_mean_speed, pydiv, Training.M_IN_KM, ne_of_gt h]
  · intro t h1 h2 h3
    simp [Swimming.get_mean_speed, pydiv, Training.M_IN_KM, h1, h2, h3]

/-- Witness for claim C2 at the driver's own SWM package, compared with
a record whose `action` is 999999 instead of 720. -/
theorem swimming_mean_speed_formula_witness :
    (0 : ℚ) < 1
    ∧ (Swimming.mk ⟨720, 1, 80⟩ 25 40).get_mean_speed =
        .ok ((25 : ℚ) * 40 / 1000 / 1)
    ∧ (Swimming.mk ⟨999999, 1, 80⟩ 25 40).get_mean_speed =
        (Swimming.mk ⟨720, 1, 80⟩ 25 40).get_mean_speed :=
  ⟨one_pos, (swimming_mean_speed_formula ⟨⟨720, 1, 80⟩, 25, 40⟩ one_pos).1,
   (swimming_mean_speed_formula ⟨⟨720, 1, 80⟩, 25, 40⟩ one_pos).2
     ⟨⟨999999, 1, 80⟩, 25, 40⟩ rfl rfl rfl⟩

/-- Claim C3 counterexample: for the package
`("SWM", [720, 1, 80, 25, 40])` the built report's distance is 0.9936
km, which is not the claimed `25 * 40 / 1000 / 1 = 1.000` km, and its
rendering is "0.994", not "1.000". -/
theorem swm_scenario_counterexample :
    (buildReport "SWM" [720, 1, 80, 25, 40]).map (fun m => m.distance)
      = .ok 0.9936
    ∧ (0.9936 : ℚ) ≠ 1 ∧ formatFixed3 0.9936 ≠ "1.000" := by
  refine ⟨?_, by norm_num, ?_⟩
  · rw [swm_report_eval]; rfl
  · rw [formatFixed3_dist]; decide

/-- Claim C3 as amended: for the package
`("SWM", [720, 1, 80, 25, 40])` the built report has type name
"Swimming", duration rendered "1.000", distance
`720 * 1.38 / 1000 = 0.9936` km rendered "0.994", mean speed 1 km/h
rendered "1.000", and calories `(1 + 1.1) * 2 * 80 * 1 = 336` kcal
rendered "336.000". -/
theorem swm_scenario_report :
    (buildReport "SWM" [720, 1, 80, 25, 40]).map (fun m =>
      (m.training_type, formatFixed3 m.duration, m.distance,
       formatFixed3 m.distance, m.speed, formatFixed3 m.speed,
       m.calories, formatFixed3 m.calories))
    = .ok ("Swimming", "1.000", 0.9936, "0.994", 1, "1.000", 336, "336.000") := by
  rw [swm_report_eval]
  simp only [Except.map, formatFixed3_one, formatFixed3_dist, formatFixed3_cal]

/-- Claim C4: for every code outside the mapping keys SWM, RUN and WLK,
`read_package` fails with the lookup error carrying the offending code
(the `dict_training[workout_type]` `KeyError`, raised before any
constructor runs), so no workout record is ever returned. -/
theorem unknown_code_keyerror (code : String) (data : List ℚ)
    (h1 : code ≠ "SWM") (h2 : code ≠ "RUN") (h3 : code ≠ "WLK") :
    read_package code data = .error (.keyError code) := by
  simp [read_package, h1, h2, h3]

/-- Witness for claim C4 at the spec's own example code "XYZ". -/
theorem unknown_code_keyerror_witness :
    ("XYZ" ≠ "SWM" ∧ "XYZ" ≠ "RUN" ∧ "XYZ" ≠ "WLK")
    ∧ read_package "XYZ" [1, 2, 3] = .error (.keyError "XYZ") :=
  ⟨⟨by decide, by decide, by decide⟩,
   unknown_code_keyerror "XYZ" [1, 2, 3] (by decide) (by decide) (by decide)⟩

/-- Claim C5, as the code actually behaves: the base
`Training.get_spent_calories` body is `pass`, so the call returns
`None` for every receiver instead of raising any error. -/
theorem base_calories_returns_none (t : Training) :
    t.get_spent_calories = none := rfl

/-- Claim C6 counterexample: on a `SportsWalking` record with height 0
(and the driver's other WLK-like fields), the calorie computation
propagates the raw `ZeroDivisionError` rather than any descriptive
invalid-input error. -/
theorem walking_zero_height_zerodiv_counterexample :
    (SportsWalking.mk ⟨9000, 1, 75⟩ 0).get_spent_calories
      = .error .zeroDivisionError := by
  simp [SportsWalking.get_spent_calories, Training.get_mean_speed,
    Training.get_distance, pydiv, Training.M_IN_KM, Training.LEN_STEP,
    Training.TIME_IN_MINUTE, SportsWalking.CONST_M_IN_S, ok_bind, error_bind,
    pure_eq_ok]

/-- Claim C6 as amended: for every `SportsWalking` record with height 0,
`get_spent_calories` fails with the raw `ZeroDivisionError` (an
uncaught arithmetic fault, not a descriptive invalid-input error); it
never silently returns an infinity or NaN value. -/
theorem walking_zero_height_zerodiv (w : SportsWalking) (h : w.height = 0) :
    w.get_spent_calories = .error .zeroDivisionError := by
  by_cases hd : w.duration = 0
  · simp [SportsWalking.get_spent_calories, Training.get_mean_speed,
      Training.get_distance, pydiv, hd, error_bind]
  · simp [SportsWalking.get_spent_calories, Training.get_mean_speed,
      Training.get_distance, pydiv, hd, h, ok_bind, error_bind,
      SportsWalking.CONST_M_IN_S]

/-- Witness for the amended claim C6 at a concrete record with
height 0. -/
theorem walking_zero_height_zerodiv_witness :
    (SportsWalking.mk ⟨1234, 2, 80⟩ 0).height = 0
    ∧ (SportsWalking.mk ⟨1234, 2, 80⟩ 0).get_spent_calories
        = .error .zeroDivisionError :=
  ⟨rfl, walking_zero_height_zerodiv ⟨⟨1234, 2, 80⟩, 0⟩ rfl⟩

/-- Claim C7: for each known code, `read_package` with a parameter list
of the wrong length fails with the constructor arity error naming the
class and both counts (Python's `TypeError` on positional binding),
and with exactly the expected number of parameters it succeeds, binding
them positionally in source order. -/
theorem dispatch_arity (data : List ℚ) :
    (data.length ≠ 3 →
      read_package "RUN" data = .error (.typeError "Running" 3 data.length))
    ∧ (∀ a d w, data = [a, d, w] →
        read_package "RUN" data = .ok (.run ⟨⟨a, d, w⟩⟩))
    ∧ (data.length ≠ 5 →
      read_package "SWM" data = .error (.typeError "Swimming" 5 data.length))
    ∧ (∀ a d w lp cp, data = [a, d, w, lp, cp] →
        read_package "SWM" data = .ok (.swm ⟨⟨a, d, w⟩, lp, cp⟩))
    ∧ (data.length ≠ 4 →
      read_package "WLK" data = .error (.typeError "SportsWalking" 4 data.length))
    ∧ (∀ a d w h, data = [a, d, w, h] →
        read_package "WLK" data = .ok (.wlk ⟨⟨a, d, w⟩, h⟩)) := by
  refine ⟨?_, ?_, ?_, ?_, ?_, ?_⟩
  · intro h
    rcases data with _ | ⟨a, _ | ⟨b, _ | ⟨c, _ | ⟨d, rest⟩⟩⟩⟩ <;>
      first | rfl | exact absurd rfl h
  · rintro a d w rfl; rfl
  · intro h
    rcases data with _ | ⟨a, _ | ⟨b, _ | ⟨c, _ | ⟨d, _ | ⟨e, _ | ⟨f, rest⟩⟩⟩⟩⟩⟩ <;>
      first | rfl | exact absurd rfl h
  · rintro a d w lp cp rfl; rfl
  · intro h
    rcases data with _ | ⟨a, _ | ⟨b, _ | ⟨c, _ | ⟨d, _ | ⟨e, rest⟩⟩⟩⟩⟩ <;>
      first | rfl | exact absurd rfl h
  · rintro a d w h rfl; rfl

/-- Witness for claim C7: RUN with a 4-element list fails with the
arity error, and RUN with exactly 3 elements succeeds, binding
positionally. -/
theorem dispatch_arity_witness :
    ([(1 : ℚ), 2, 3, 4].length ≠ 3
      ∧ read_package "RUN" [1, 2, 3, 4]
          = .error (.typeError "Running" 3 [(1 : ℚ), 2, 3, 4].length))
    ∧ read_package "RUN" [15000, 1, 75] = .ok (.run ⟨⟨15000, 1, 75⟩⟩) :=
  ⟨⟨by decide, (dispatch_arity [1, 2, 3, 4]).1 (by decide)⟩,
   (dispatch_arity [15000, 1, 75]).2.1 15000 1 75 rfl⟩

/-- Claim C8: every report is rendered through the fixed template
`Тип тренировки: _; Длительность: _ ч.; Дистанция: _ км; Ср. скорость:
_ км/ч; Потрачено ккал: _.`, and each of the four numeric fields is
rendered with exactly three digits after the decimal point. -/
theorem info_message_template (m : InfoMessage) :
    m.get_message = "Тип тренировки: " ++ m.training_type ++ "; Длительность: "
      ++ formatFixed3 m.duration ++ " ч.; Дистанция: " ++ formatFixed3 m.distance
      ++ " км; Ср. скорость: " ++ formatFixed3 m.speed ++ " км/ч; Потрачено ккал: "
      ++ formatFixed3 m.calories ++ "."
    ∧ afterPointLen (formatFixed3 m.duration) = 3
    ∧ afterPointLen (formatFixed3 m.distance) = 3
    ∧ afterPointLen (formatFixed3 m.speed) = 3
    ∧ afterPointLen (formatFixed3 m.calories) = 3 :=
  ⟨rfl, afterPointLen_formatFixed3 _, afterPointLen_formatFixed3 _,
   afterPointLen_formatFixed3 _, afterPointLen_formatFixed3 _⟩

/-- Claim C9: the constructors validate nothing — for arbitrary field
values (zero duration, zero height, negatives included) construction
succeeds and every field is stored unchanged; the division error
surfaces only when `get_mean_speed` is actually invoked on a
zero-duration record, and a nonzero duration gives the normal value. -/
theorem constructors_no_validation (a d w h lp cp : ℚ) :
    ((Training.mk a d w).action = a ∧ (Training.mk a d w).duration = d
      ∧ (Training.mk a d w).weight = w)
    ∧ ((Running.mk ⟨a, d, w⟩).action = a ∧ (Running.mk ⟨a, d, w⟩).duration = d
      ∧ (Running.mk ⟨a, d, w⟩).weight = w)
    ∧ ((SportsWalking.mk ⟨a, d, w⟩ h).height = h
      ∧ (SportsWalking.mk ⟨a, d, w⟩ h).duration = d)
    ∧ ((Swimming.mk ⟨a, d, w⟩ lp cp).length_pool = lp
      ∧ (Swimming.mk ⟨a, d, w⟩ lp cp).count_pool = cp)
    ∧ (d = 0 → (Training.mk a d w).get_mean_speed = .error .zeroDivisionError)
    ∧ (d ≠ 0 → (Training.mk a d w).get_mean_speed = .ok (a * 0.65 / 1000 / d)) := by
  refine ⟨⟨rfl, rfl, rfl⟩, ⟨rfl, rfl, rfl⟩, ⟨rfl, rfl⟩, ⟨rfl, rfl⟩, ?_, ?_⟩
  · intro hd
    simp [Training.get_mean_speed, Training.get_distance, pydiv, hd]
  · intro hd
    simp [Training.get_mean_speed, Training.get_distance, pydiv, hd,
      Training.M_IN_KM, Training.LEN_STEP]

/-- Witness for claim C9: a zero-duration record is constructed without
error and fails only at `get_mean_speed`; a duration-1 record computes
the speed. -/
theorem constructors_no_validation_witness :
    ((0 : ℚ) = 0
      ∧ (Training.mk 100 0 70).get_mean_speed = .error .zeroDivisionError)
    ∧ ((1 : ℚ) ≠ 0
      ∧ (Training.mk 100 1 70).get_mean_speed = .ok (100 * 0.65 / 1000 / 1)) :=
  ⟨⟨rfl, (constructors_no_validation 100 0 70 0 0 0).2.2.2.2.1 rfl⟩,
   ⟨by norm_num,
    (constructors_no_validation 100 1 70 0 0 0).2.2.2.2.2 (by norm_num)⟩⟩

/-- Claim C10: every method, run in state-passing form, returns the
receiver with all fields unchanged, and running the same method again
on the returned object yields the identical result — the computations
are pure reads. -/
theorem operations_pure (r : Running) (w : SportsWalking) (s : Swimming) :
    ((Training.get_distanceSt r.toTraining).2 = r.toTraining
      ∧ Training.get_distanceSt (Training.get_distanceSt r.toTraining).2
          = Training.get_distanceSt r.toTraining)
    ∧ ((Training.get_mean_speedSt r.toTraining).2 = r.toTraining
      ∧ Training.get_mean_speedSt (Training.get_mean_speedSt r.toTraining).2
          = Training.get_mean_speedSt r.toTraining)
    ∧ ((Running.get_spent_caloriesSt r).2 = r
      ∧ Running.get_spent_caloriesSt (Running.get_spent_caloriesSt r).2
          = Running.get_spent_caloriesSt r)
    ∧ ((Running.show_training_infoSt r).2 = r
      ∧ Running.show_training_infoSt (Running.show_training_infoSt r).2
          = Running.show_training_infoSt r)
    ∧ ((SportsWalking.get_spent_caloriesSt w).2 = w
      ∧ SportsWalking.get_spent_caloriesSt (SportsWalking.get_spent_caloriesSt w).2
          = SportsWalking.get_spent_caloriesSt w)
    ∧ ((SportsWalking.show_training_infoSt w).2 = w
      ∧ SportsWalking.show_training_infoSt (SportsWalking.show_training_infoSt w).2
          = SportsWalking.show_training_infoSt w)
    ∧ ((Swimming.get_distanceSt s).2 = s
      ∧ Swimming.get_distanceSt (Swimming.get_distanceSt s).2
          = Swimming.get_distanceSt s)
    ∧ ((Swimming.get_mean_speedSt s).2 = s
      ∧ Swimming.get_mean_speedSt (Swimming.get_mean_speedSt s).2
          = Swimming.get_mean_speedSt s)
    ∧ ((Swimming.get_spent_caloriesSt s).2 = s
      ∧ Swimming.get_spent_caloriesSt (Swimming.get_spent_caloriesSt s).2
          = Swimming.get_spent_caloriesSt s)
    ∧ ((Swimming.show_training_infoSt s).2 = s
      ∧ Swimming.show_training_infoSt (Swimming.show_training_infoSt s).2
          = Swimming.show_training_infoSt s) :=
  ⟨⟨rfl, rfl⟩, ⟨rfl, rfl⟩, ⟨rfl, rfl⟩, ⟨rfl, rfl⟩, ⟨rfl, rfl⟩,
   ⟨rfl, rfl⟩, ⟨rfl, rfl⟩, ⟨rfl, rfl⟩, ⟨rfl, rfl⟩, ⟨rfl, rfl⟩⟩

end Homework
